import Mathlib

/-!
Verification of the EyeCue capture-analyze-speak pipeline against its
design document.  The definitions below are a shallow embedding of the
TypeScript sources: the retry client of `huggingfaceApi.ts`
(`sendImageForCaptioning`, `sendImageForObjectDetection`,
`sendImageForVQA`, `sendImageForColorVQA`, `sendAudioForTranscription`,
`speakText`, `cancelSpeakText`), the per-screen audio playback queue
(`playNextInQueue` / `queueAudio`), the session-guarded `takePhoto`
pipeline of the Detect screen, and the voice-recording sub-pipeline of
the Describe screen.  Asynchronous code is modelled as step functions on
explicit state, with the event-loop scheduler abstracted into event
lists or tick-indexed environment functions; each definition's doc
comment records the source lines it embeds and the modelling choices.
-/

namespace EyeCue

/-! ## Retry client (huggingfaceApi.ts lines 22-24, 57-100, 123-378)

The five network operations share one loop shape: up to `MAX_RETRIES`
attempts, an abort-signal check at function entry, at the top of every
loop iteration and before every sleep, a fixed `RETRY_DELAY` sleep after
a failed attempt that is not the last, and the `FALLBACK_MESSAGE` once
the attempts are exhausted.  The loop is modelled as a function of an
environment giving the value the abort signal shows at each successive
check and the outcome of each successive network attempt; the run
returns both its result and the ordered list of observable events
(checks, attempts, sleeps). -/

/-- Outcome of one network request: the promise resolved with parsed
response data, or it rejected.  For a rejection, `isAbort` records
whether the thrown error passes the code's abort test
(`error.name === AbortError` or `error.message === Request aborted`). -/
inductive NetOutcome (α : Type) where
  | ok (data : α)
  | err (isAbort : Bool)
deriving DecidableEq

/-- Environment of one call to an operation: `aborted k` is the value of
`signal.aborted` observed at the k-th abort check of the run, and
`net k` is the outcome of the k-th network attempt of the run. -/
structure Env (α : Type) where
  aborted : ℕ → Bool
  net : ℕ → NetOutcome α

/-- Observable events of one call, in program order: an abort-signal
check (recording the value it observed), a network attempt, or a sleep
with its duration in milliseconds. -/
inductive Ev where
  | check (aborted : Bool)
  | netAttempt
  | sleep (ms : ℕ)
deriving DecidableEq

/-- How a call ends: a string returned to the caller, or the thrown
`Request aborted` error. -/
inductive RunResult where
  | value (s : String)
  | abortError
deriving DecidableEq

/-- `const MAX_RETRIES = 6` (line 22). -/
def MAX_RETRIES : ℕ := 6

/-- `const RETRY_DELAY = 3000` (line 23). -/
def RETRY_DELAY : ℕ := 3000

/-- `const FALLBACK_MESSAGE = ...` (line 24). -/
def FALLBACK_MESSAGE : String := "Error processing your request. Please try again."

/-- Parsed response of the caption endpoint: `none` models a missing,
null or undefined `caption` field (or non-object data). -/
structure CaptionResp where
  caption : Option String
deriving DecidableEq

/-- Parsed response of the detect endpoint: `none` models a missing
`labels` field, `some ls` a JSON array of label strings. -/
structure DetectResp where
  labels : Option (List String)
deriving DecidableEq

/-- Parsed response of the vqa endpoint (also used by the color query):
`none` models a missing `answer` field. -/
structure VqaResp where
  answer : Option String
deriving DecidableEq

/-- Parsed response of the transcribe endpoint: `none` models a missing
`text` field. -/
structure TranscribeResp where
  text : Option String
deriving DecidableEq

/-- JavaScript truthiness of an optional string field, as tested by
`if (data?.caption)` and friends: a missing/null field and the empty
string are falsy, every other string is truthy. -/
def strTruthy : Option String → Bool
  | none => false
  | some s => !(s == "")

/-- JavaScript truthiness of an optional array field, as tested by
`if (data?.labels)` (line 185): a missing/null field is falsy, while an
array is an object and therefore truthy even when it is empty. -/
def arrTruthy : Option (List String) → Bool
  | none => false
  | some _ => true

/-- Success branch of `sendImageForCaptioning` (lines 138-140):
`some s` means `return s`, `none` means fall through to the next loop
iteration without sleeping. -/
def captionOnSuccess (d : CaptionResp) : Option String :=
  if strTruthy d.caption then d.caption else none

/-- Success branch of `sendImageForObjectDetection` (lines 185-189):
a truthy `labels` returns `labels.join(...)`, otherwise the function
returns the no-objects string.  Both branches return, so this never
yields `none`. -/
def detectOnSuccess (d : DetectResp) : Option String :=
  if arrTruthy d.labels then some (String.intercalate ", " (d.labels.getD []))
  else some "No objects detected."

/-- Success branch of `sendImageForVQA` (lines 236-238). -/
def vqaOnSuccess (d : VqaResp) : Option String :=
  if strTruthy d.answer then d.answer else none

/-- Success branch of `sendImageForColorVQA` (lines 289-294): a truthy
`answer` is returned, otherwise the function returns the literal
`Unknown` immediately. -/
def colorOnSuccess (d : VqaResp) : Option String :=
  if strTruthy d.answer then d.answer else some "Unknown"

/-- The shared retry loop of the four image operations
(lines 131-159 and its three clones), parameterized by the success
branch.  Arguments: attempts remaining (the loop runs while
`attempt <= MAX_RETRIES`, so it starts at `MAX_RETRIES`), the index of
the next abort check and of the next network attempt in the
environment.  Per iteration: the loop-top check (line 132), the check
at `sendImage` entry (line 63), then the attempt; on a thrown abort
error the loop rethrows (lines 142-144); on another error it returns
the fallback if this was the last attempt, otherwise it checks the
signal once more (line 150) and sleeps `RETRY_DELAY` (line 153); when
the success branch falls through, the loop continues with no sleep.
Exhausting the loop returns the fallback (line 159). -/
def imageLoop {α : Type} (onSuccess : α → Option String) (env : Env α) :
    ℕ → ℕ → ℕ → RunResult × List Ev
  | 0, _, _ => (.value FALLBACK_MESSAGE, [])
  | remaining + 1, ck, nk =>
    if env.aborted ck then (.abortError, [.check true])
    else if env.aborted (ck + 1) then (.abortError, [.check false, .check true])
    else
      match env.net nk with
      | .ok d =>
        match onSuccess d with
        | some s => (.value s, [.check false, .check false, .netAttempt])
        | none =>
          ((imageLoop onSuccess env remaining (ck + 2) (nk + 1)).1,
            [.check false, .check false, .netAttempt] ++
              (imageLoop onSuccess env remaining (ck + 2) (nk + 1)).2)
      | .err true => (.abortError, [.check false, .check false, .netAttempt])
      | .err false =>
        if remaining = 0 then
          (.value FALLBACK_MESSAGE, [.check false, .check false, .netAttempt])
        else if env.aborted (ck + 2) then
          (.abortError, [.check false, .check false, .netAttempt, .check true])
        else
          ((imageLoop onSuccess env remaining (ck + 3) (nk + 1)).1,
            [.check false, .check false, .netAttempt, .check false,
              .sleep RETRY_DELAY] ++
              (imageLoop onSuccess env remaining (ck + 3) (nk + 1)).2)

/-- Entry point shared by the four image operations: the check at
function entry (line 127 and clones) throws the abort error before any
I/O, then the retry loop runs. -/
def runImageOp {α : Type} (onSuccess : α → Option String) (env : Env α) :
    RunResult × List Ev :=
  if env.aborted 0 then (.abortError, [.check true])
  else
    ((imageLoop onSuccess env MAX_RETRIES 1 0).1,
      .check false :: (imageLoop onSuccess env MAX_RETRIES 1 0).2)

/-- `sendImageForCaptioning` (lines 123-160). -/
def sendImageForCaptioning (env : Env CaptionResp) : RunResult × List Ev :=
  runImageOp captionOnSuccess env

/-- `sendImageForObjectDetection` (lines 170-209). -/
def sendImageForObjectDetection (env : Env DetectResp) : RunResult × List Ev :=
  runImageOp detectOnSuccess env

/-- `sendImageForVQA` (lines 220-258). -/
def sendImageForVQA (env : Env VqaResp) : RunResult × List Ev :=
  runImageOp vqaOnSuccess env

/-- `sendImageForColorVQA` (lines 268-314). -/
def sendImageForColorVQA (env : Env VqaResp) : RunResult × List Ev :=
  runImageOp colorOnSuccess env

/-- Success branch of `sendAudioForTranscription` (lines 352-358): a
truthy `text` field is returned, otherwise the empty string. -/
def transcribeOnSuccess (d : TranscribeResp) : String :=
  if strTruthy d.text then d.text.getD "" else ""

/-- Retry loop of `sendAudioForTranscription` (lines 332-377).  Same
shape as `imageLoop` except that the request is issued inline (no
`sendImage` entry check, so one check per iteration) and every abort
observation returns the empty string instead of throwing
(lines 333-335, 360-362, 368-370). -/
def transcribeLoop (env : Env TranscribeResp) :
    ℕ → ℕ → ℕ → RunResult × List Ev
  | 0, _, _ => (.value FALLBACK_MESSAGE, [])
  | remaining + 1, ck, nk =>
    if env.aborted ck then (.value "", [.check true])
    else
      match env.net nk with
      | .ok d => (.value (transcribeOnSuccess d), [.check false, .netAttempt])
      | .err true => (.value "", [.check false, .netAttempt])
      | .err false =>
        if remaining = 0 then
          (.value FALLBACK_MESSAGE, [.check false, .netAttempt])
        else if env.aborted (ck + 1) then
          (.value "", [.check false, .netAttempt, .check true])
        else
          ((transcribeLoop env remaining (ck + 2) (nk + 1)).1,
            [.check false, .netAttempt, .check false, .sleep RETRY_DELAY] ++
              (transcribeLoop env remaining (ck + 2) (nk + 1)).2)

/-- `sendAudioForTranscription` (lines 324-378): the entry check
(lines 328-330) silently returns the empty string. -/
def sendAudioForTranscription (env : Env TranscribeResp) :
    RunResult × List Ev :=
  if env.aborted 0 then (.value "", [.check true])
  else
    ((transcribeLoop env MAX_RETRIES 1 0).1,
      .check false :: (transcribeLoop env MAX_RETRIES 1 0).2)

/-! ### Trace predicates for the retry discipline -/

/-- Is the event a network attempt? -/
def isAttempt : Ev → Bool
  | .netAttempt => true
  | _ => false

/-- Number of network attempts recorded in a trace. -/
def countAttempts (evs : List Ev) : ℕ := (evs.filter isAttempt).length

/-- Is the event a sleep? -/
def isSleepEv : Ev → Bool
  | .sleep _ => true
  | _ => false

/-- Number of sleeps recorded in a trace. -/
def countSleeps (evs : List Ev) : ℕ := (evs.filter isSleepEv).length

/-- Well-formed retry trace.  The flag carries whether the immediately
preceding event was an abort check that observed `false`.  The
predicate requires: every network attempt and every sleep immediately
follows such a check, every sleep lasts `RETRY_DELAY` milliseconds, and
a check that observes the signal cancelled is the final event of the
trace (nothing runs after a cancellation is observed). -/
def wfTrace : Bool → List Ev → Bool
  | _, [] => true
  | _, .check false :: rest => wfTrace true rest
  | _, .check true :: rest => rest.isEmpty
  | prev, .netAttempt :: rest => prev && wfTrace false rest
  | prev, .sleep ms :: rest => prev && (ms == RETRY_DELAY) && wfTrace false rest

/-- One iteration of the all-attempts-fail trace of an image operation:
loop-top check, `sendImage` entry check, the failed attempt, the
pre-sleep check, the sleep. -/
def allFailChunk : List Ev :=
  [.check false, .check false, .netAttempt, .check false, .sleep RETRY_DELAY]

/-- Full trace of an image operation on which every attempt fails with
a non-abort error and the signal never aborts: the entry check, five
failed attempts each followed by a sleep, and the sixth failed attempt
after which the fallback is returned with no further sleep. -/
def allFailImageTrace : List Ev :=
  .check false ::
    (allFailChunk ++ allFailChunk ++ allFailChunk ++ allFailChunk ++
      allFailChunk ++ [.check false, .check false, .netAttempt])

/-- One iteration of the all-attempts-fail transcription trace. -/
def allFailTransChunk : List Ev :=
  [.check false, .netAttempt, .check false, .sleep RETRY_DELAY]

/-- Full trace of `sendAudioForTranscription` when every attempt fails
with a non-abort error and the signal never aborts. -/
def allFailTransTrace : List Ev :=
  .check false ::
    (allFailTransChunk ++ allFailTransChunk ++ allFailTransChunk ++
      allFailTransChunk ++ allFailTransChunk ++ [.check false, .netAttempt])

/-- Full trace of a caption/vqa run in which every attempt succeeds at
the network level but the response lacks a truthy expected field: six
attempts back to back, with no sleep between them. -/
def fieldlessTrace : List Ev :=
  .check false ::
    ([.check false, .check false, .netAttempt] ++
      [.check false, .check false, .netAttempt] ++
      [.check false, .check false, .netAttempt] ++
      [.check false, .check false, .netAttempt] ++
      [.check false, .check false, .netAttempt] ++
      [.check false, .check false, .netAttempt])

/-! ### Concrete environments used by the scenario theorems -/

/-- The signal never aborts and the detect backend answers
`labels: []` on every attempt. -/
def emptyLabelsEnv : Env DetectResp :=
  Env.mk (fun _ => false) (fun _ => .ok (DetectResp.mk (some [])))

/-- The signal never aborts and the detect backend answers with no
`labels` field. -/
def noLabelsEnv : Env DetectResp :=
  Env.mk (fun _ => false) (fun _ => .ok (DetectResp.mk none))

/-- The signal never aborts and every transcription attempt fails with
a non-abort error. -/
def allFailTransEnv : Env TranscribeResp :=
  Env.mk (fun _ => false) (fun _ => .err false)

/-- A transcription environment whose signal is aborted from the
start. -/
def abortedTransEnv : Env TranscribeResp :=
  Env.mk (fun _ => true) (fun _ => .err false)

/-- The signal never aborts and every vqa/color attempt succeeds with
no `answer` field. -/
def fieldlessVqaEnv : Env VqaResp :=
  Env.mk (fun _ => false) (fun _ => .ok (VqaResp.mk none))

/-- The Detect screen call site `const output = result || ...`
(Detect `takePhoto`, line 280): JavaScript or-else on strings replaces
exactly the empty string. -/
def orNoObjectsFound (result : String) : String :=
  if result == "" then "No objects found" else result

/-! ## Speech synthesizer state (huggingfaceApi.ts lines 380-509)

The module keeps one mutable variable `currentSound` (line 381).
`cancelSpeakText` (lines 388-399) stops and unloads the clip held in
`currentSound`, if any, and resets the variable to null.  `speakText`
(lines 408-509) first awaits `cancelSpeakText`, then creates a fresh
`Audio.Sound` for the synthesized audio and plays it.  Crucially, and
exactly as in the source, `speakText` never assigns the freshly
created sound to `currentSound`: the new clip lives only in the local
`sound` binding, to be unloaded by its own completion or timeout
handler.  Clips are modelled by the numeric identifier order in which
`Audio.Sound.createAsync` produced them. -/

/-- Module-level speech state: the `currentSound` variable, the set of
clips currently loaded, the set currently playing, and the identifier
the next `createAsync` will produce. -/
structure SpeakState where
  currentSound : Option ℕ
  loaded : List ℕ
  playing : List ℕ
  nextId : ℕ
deriving DecidableEq

/-- State at module load: `currentSound = null`, no clips. -/
def initialSpeakState : SpeakState := SpeakState.mk none [] [] 0

/-- `cancelSpeakText` (lines 388-399): when `currentSound` is non-null,
stop it, unload it and reset the variable; otherwise do nothing. -/
def cancelSpeakText (s : SpeakState) : SpeakState :=
  match s.currentSound with
  | none => s
  | some id =>
    SpeakState.mk none (s.loaded.erase id) (s.playing.erase id) s.nextId

/-- `speakText` (lines 408-509), success path: await `cancelSpeakText`,
synthesize, `Audio.Sound.createAsync` a new clip and `playAsync` it.
As in the source, `currentSound` is left untouched by this function:
no statement in `speakText` writes to it. -/
def speakText (s : SpeakState) : SpeakState :=
  let s1 := cancelSpeakText s
  SpeakState.mk s1.currentSound (s1.nextId :: s1.loaded)
    (s1.nextId :: s1.playing) (s1.nextId + 1)

/-- `const estimatedDuration = Math.max(text.length * 0.1 + 5, 30) * 1000`
(line 417), in exact rational arithmetic over the text length. -/
def estimatedDuration (len : ℕ) : ℚ :=
  max ((len : ℚ) * (1 / 10) + 5) 30 * 1000

/-- `const timeoutDuration = Math.min(estimatedDuration, 120000)`
(line 418). -/
def timeoutDuration (len : ℕ) : ℚ :=
  min (estimatedDuration len) 120000

/-! ## Audio playback queue (Detect lines 67-92, Describe lines 642-667,
CameraContext.tsx lines 49-74 — three identical copies)

`queueAudio` pushes a job and calls `playNextInQueue`; the latter
returns at once when a job is marked playing or the queue is empty,
otherwise it marks playing, shifts the head job, awaits it (catching
any failure), unmarks, and recurses.  Under the single-threaded event
loop the check-and-set of `isPlayingAudioRef` is atomic (no await
separates them), so the system is modelled by a state carrying the
pending queue and the at-most-one running job, driven by two events:
a synchronous `queueAudio` call, and the resumption that runs when the
awaited job settles.  Each step reports which job it started. -/

/-- Queue state: pending jobs in arrival order, and the job currently
being awaited, if any (`isPlayingAudioRef` is true exactly when
`running` is some). -/
structure QState where
  queue : List ℕ
  running : Option ℕ
deriving DecidableEq

/-- `playNextInQueue` (lines 67-83) up to its first await: return the
state unchanged when busy or empty, otherwise shift the head job and
mark it running.  The second component is the job started, if any. -/
def playNextInQueue (s : QState) : QState × List ℕ :=
  if s.running.isSome || s.queue.isEmpty then (s, [])
  else
    match s.queue with
    | [] => (s, [])
    | j :: rest => (QState.mk rest (some j), [j])

/-- `queueAudio` (lines 89-92): push the job, then `playNextInQueue`. -/
def queueAudio (j : ℕ) (s : QState) : QState × List ℕ :=
  playNextInQueue (QState.mk (s.queue ++ [j]) s.running)

/-- Scheduler events: a call to `queueAudio j`, or the settlement of
the currently awaited job (`ok` records whether the job's promise
fulfilled or rejected — the `catch` at lines 76-79 swallows a
rejection, so the continuation is the same either way: unmark playing
and call `playNextInQueue` again, lines 81-82). -/
inductive QAct where
  | enq (j : ℕ)
  | fin (ok : Bool)
deriving DecidableEq

/-- One event-loop step of the queue system. -/
def qstep (s : QState) : QAct → QState × List ℕ
  | .enq j => queueAudio j s
  | .fin _ =>
    match s.running with
    | none => (s, [])
    | some _ => playNextInQueue (QState.mk s.queue none)

/-- Run a sequence of events, collecting every started job in order. -/
def qrun : QState → List QAct → QState × List ℕ
  | s, [] => (s, [])
  | s, a :: rest =>
    ((qrun (qstep s a).1 rest).1, (qstep s a).2 ++ (qrun (qstep s a).1 rest).2)

/-- Per-step view of a run: the list of jobs each event started. -/
def qtrace : QState → List QAct → List (List ℕ)
  | _, [] => []
  | s, a :: rest => (qstep s a).2 :: qtrace (qstep s a).1 rest

/-- The jobs enqueued by a sequence of events, in arrival order. -/
def enqueuedOf : List QAct → List ℕ
  | [] => []
  | .enq j :: rest => j :: enqueuedOf rest
  | .fin _ :: rest => enqueuedOf rest

/-! ## Detect screen takePhoto pipeline (Detect lines 221-306)

The success path of `takePhoto`, modelled with an explicit event-loop
clock: every await-suspension advances the tick by one, consecutive
synchronous statements share a tick, and the three sound-setup awaits
(createAsync / setIsLoopingAsync) are merged into one tick.  The
environment `sess t` gives the value of `sessionIdRef.current` at tick
`t`; the pipeline captures `currentSession = sess 0` at entry
(line 228) and compares against it exactly where the source does:
after the photo await (line 242) and after the detection request
(line 276).  Effects are emitted tagged with the session value current
at the tick they run.  Ticks: 0 entry, 1 after `takePictureAsync`
(UI updates lines 245-247 and the `speakText` call line 250 run here),
2 after that speech, 3 after the 300 ms delay, 4 after sound setup
(`playAsync` starts the processing cue here), 5 after `playAsync`,
6 after the resize, 7 after the detection request (the stale check
line 276, then `stopLoadingSound` is called), 8 after
`stopLoadingSound` (the result is displayed, line 281), 9 after the
500 ms delay (line 284), where the guard of line 285 consults only the
render-captured `isFocused` — true when the capture started — and the
result is spoken (line 287) with no further session check. -/

/-- Observable pipeline effects the claim is about. -/
inductive Effect where
  | setPhoto
  | setResults (s : String)
  | speak (s : String)
  | startSound
  | stopSound
deriving DecidableEq

/-- The Detect `takePhoto` success path as a list of
(session-at-emission, effect) pairs, given the session counter at each
tick and the string the detection request resolved with. -/
def takePhotoDetect (sess : ℕ → ℕ) (output : String) : List (ℕ × Effect) :=
  if sess 1 ≠ sess 0 then []
  else
    [(sess 1, .setPhoto), (sess 1, .setResults "Processing..."),
      (sess 1, .speak "Processing..."), (sess 4, .startSound)] ++
      (if sess 7 ≠ sess 0 then []
       else
        [(sess 7, .stopSound), (sess 8, .setResults output),
          (sess 9, .speak output)])

/-- A schedule on which the session counter advances (focus loss or
unmount bumps `sessionIdRef`, Detect lines 136/149) while the pipeline
sits in the 500 ms delay between displaying the result (tick 8) and
speaking it (tick 9). -/
def staleAfterResultSess : ℕ → ℕ := fun t => if t ≤ 8 then 0 else 1

/-! ## Voice recording sub-pipeline (Describe lines 930-1028,
1100-1125, 1227-1243)

When a long press starts, `handleLongPressStart` arms a 1-second
countdown interval and a 10-second timeout; either path sets
`forceGestureEnd`, which disables the long-press gesture on the next
render, making the gesture finalize; `onFinalize` — which the gesture
recognizer fires at most once per gesture, whether the press ends
naturally or the gesture is disabled — calls `forceStopRecording` when
a recording exists; `forceStopRecording` clears both timers, stops the
recording, and runs transcription.  The model over-approximates the
timeout callback by letting it read the live `recording` value (in the
source the callback closes over the value from the press-start render);
this only adds behaviours, and the exactly-once property is proved over
all of them. -/

/-- State of the recording sub-pipeline. `stops` counts completed runs
of the stop/transcribe flow, `transcribes` the transcription requests
it issued. -/
structure RecState where
  recording : Bool
  forceEnd : Bool
  gestureFinalized : Bool
  countdownArmed : Bool
  timeoutArmed : Bool
  stops : ℕ
  transcribes : ℕ
deriving DecidableEq

/-- `forceStopRecording` (lines 930-1028): early return when there is
no recording (line 931); otherwise clear both timers (lines 934-942),
stop the recording, and proceed directly into
`sendAudioForTranscription` (line 985). -/
def forceStopRecording (s : RecState) : RecState :=
  if s.recording then
    RecState.mk false s.forceEnd s.gestureFinalized false false
      (s.stops + 1) (s.transcribes + 1)
  else s

/-- `longPressGesture.onFinalize` (lines 1236-1243), fired at most once
per gesture by the recognizer: call `forceStopRecording` when a
recording exists, then reset `forceGestureEnd`. -/
def onFinalize (s : RecState) : RecState :=
  if s.gestureFinalized then s
  else
    let s1 := if s.recording then forceStopRecording s else s
    RecState.mk s1.recording false true s1.countdownArmed s1.timeoutArmed
      s1.stops s1.transcribes

/-- Scheduler events for the sub-pipeline: the countdown interval
reaching zero, the 10-second timeout firing, the user releasing the
gesture, and a re-render applying the `forceGestureEnd` flag (which
disables the gesture and so finalizes it). -/
inductive RecEv where
  | countdownExpire
  | timeoutFire
  | release
  | render
deriving DecidableEq

/-- One event-loop step of the sub-pipeline.  Countdown expiry
(lines 1102-1117) clears its interval and sets `forceGestureEnd`; the
timeout (lines 1120-1125) sets `forceGestureEnd` when a recording
exists; a release finalizes the gesture; a render finalizes it when
`forceGestureEnd` is set (the gesture's `enabled` condition,
lines 1229-1230). -/
def recStep (s : RecState) : RecEv → RecState
  | .countdownExpire =>
    if s.countdownArmed then
      RecState.mk s.recording true s.gestureFinalized false s.timeoutArmed
        s.stops s.transcribes
    else s
  | .timeoutFire =>
    if s.timeoutArmed then
      RecState.mk s.recording (s.forceEnd || s.recording) s.gestureFinalized
        s.countdownArmed false s.stops s.transcribes
    else s
  | .release => onFinalize s
  | .render => if s.forceEnd then onFinalize s else s

/-- Run a sequence of sub-pipeline events. -/
def recRun (s : RecState) : List RecEv → RecState
  | [] => s
  | e :: rest => recRun (recStep s e) rest

/-- State right after a recording successfully started
(lines 1098-1125): recording in progress, both timers armed, gesture
still active, no stop has run. -/
def recordingActive : RecState := RecState.mk true false false true true 0 0

/-! ## Helper lemmas: closed-form runs of the retry client -/

/-- When the signal never aborts and every attempt fails with a
non-abort error, an image operation performs all six attempts with a
sleep between consecutive ones and returns the fallback. -/
theorem runImageOp_allFail {α : Type} (onSuccess : α → Option String)
    (env : Env α) (h1 : ∀ k, env.aborted k = false)
    (h2 : ∀ k, env.net k = .err false) :
    runImageOp onSuccess env = (.value FALLBACK_MESSAGE, allFailImageTrace) := by
  obtain ⟨ab, net⟩ := env
  have hab : ab = fun _ => false := funext h1
  have hnet : net = fun _ => NetOutcome.err false := funext h2
  subst hab hnet
  rfl

/-- An image operation whose signal is aborted at the entry check
throws at once, with no attempt and no further event. -/
theorem runImageOp_abortedStart {α : Type} (onSuccess : α → Option String)
    (env : Env α) (h : env.aborted 0 = true) :
    runImageOp onSuccess env = (.abortError, [.check true]) := by
  simp [runImageOp, h]

/-- When the signal never aborts and every attempt fails with a
non-abort error, transcription performs all six attempts and returns
the fallback message. -/
theorem transcription_allFail (env : Env TranscribeResp)
    (h1 : ∀ k, env.aborted k = false) (h2 : ∀ k, env.net k = .err false) :
    sendAudioForTranscription env = (.value FALLBACK_MESSAGE, allFailTransTrace) := by
  obtain ⟨ab, net⟩ := env
  have hab : ab = fun _ => false := funext h1
  have hnet : net = fun _ => NetOutcome.err false := funext h2
  subst hab hnet
  rfl

/-- Transcription with a signal aborted at the entry check returns the
empty string at once, with no attempt. -/
theorem transcription_abortedStart (env : Env TranscribeResp)
    (h : env.aborted 0 = true) :
    sendAudioForTranscription env = (.value "", [.check true]) := by
  simp [sendAudioForTranscription, h]

/-- When every attempt succeeds but the response has no `caption`
field, all six attempts are consumed back to back (no sleeps) and the
fallback is returned. -/
theorem caption_fieldless (env : Env CaptionResp)
    (h1 : ∀ k, env.aborted k = false)
    (h2 : ∀ k, env.net k = .ok (CaptionResp.mk none)) :
    sendImageForCaptioning env = (.value FALLBACK_MESSAGE, fieldlessTrace) := by
  obtain ⟨ab, net⟩ := env
  have hab : ab = fun _ => false := funext h1
  have hnet : net = fun _ => NetOutcome.ok (CaptionResp.mk none) := funext h2
  subst hab hnet
  rfl

/-- Same as `caption_fieldless` for the vqa operation. -/
theorem vqa_fieldless (env : Env VqaResp)
    (h1 : ∀ k, env.aborted k = false)
    (h2 : ∀ k, env.net k = .ok (VqaResp.mk none)) :
    sendImageForVQA env = (.value FALLBACK_MESSAGE, fieldlessTrace) := by
  obtain ⟨ab, net⟩ := env
  have hab : ab = fun _ => false := funext h1
  have hnet : net = fun _ => NetOutcome.ok (VqaResp.mk none) := funext h2
  subst hab hnet
  rfl

/-- The color operation, by contrast, returns `Unknown` on its first
field-less successful response, consuming a single attempt. -/
theorem color_fieldless (env : Env VqaResp)
    (h1 : ∀ k, env.aborted k = false)
    (h2 : ∀ k, env.net k = .ok (VqaResp.mk none)) :
    sendImageForColorVQA env =
      (.value "Unknown", [.check false, .check false, .check false, .netAttempt]) := by
  obtain ⟨ab, net⟩ := env
  have hab : ab = fun _ => false := funext h1
  have hnet : net = fun _ => NetOutcome.ok (VqaResp.mk none) := funext h2
  subst hab hnet
  rfl

/-! ## Claim theorems -/

/-- C1, counterexample.  With a successful backend response whose
`labels` field is the empty array, `sendImageForObjectDetection` does
NOT return the literal no-objects string: a JavaScript empty array is
truthy, so the code takes the `labels.join` branch and returns the
empty string. -/
theorem detect_empty_labels_counterexample :
    (sendImageForObjectDetection emptyLabelsEnv).1 = RunResult.value "" ∧
    (RunResult.value "" == RunResult.value "No objects detected.") = false :=
  ⟨rfl, rfl⟩

/-- C1, amended.  The no-objects string is returned exactly when the
response lacks a `labels` field; with `labels` present but empty the
operation returns the empty string (the join of zero labels), which
the Detect screen's `result || ...` guard then displays as the
distinct string `No objects found`. -/
theorem detect_empty_labels_amended :
    (sendImageForObjectDetection noLabelsEnv).1 =
      RunResult.value "No objects detected." ∧
    (sendImageForObjectDetection emptyLabelsEnv).1 = RunResult.value "" ∧
    orNoObjectsFound "" = "No objects found" :=
  ⟨rfl, rfl, rfl⟩

/-- C2, counterexample.  On an input where all six transcription
attempts fail (no cancellation), `sendAudioForTranscription` returns
the shared fallback string, not the empty string: the empty string is
returned only on the abort paths. -/
theorem transcription_exhaustion_counterexample :
    (sendAudioForTranscription allFailTransEnv).1 =
      RunResult.value FALLBACK_MESSAGE ∧
    (RunResult.value FALLBACK_MESSAGE == RunResult.value "") = false :=
  ⟨rfl, rfl⟩

/-- C2, amended.  On every input where all six attempts fail with
non-abort errors, each of the five operations — transcription
included — returns the fixed fallback string without throwing;
transcription returns the empty string on cancellation (where the four
image operations instead throw the abort error). -/
theorem fallback_on_exhaustion_amended :
    (∀ env : Env CaptionResp, (∀ k, env.aborted k = false) →
      (∀ k, env.net k = .err false) →
      (sendImageForCaptioning env).1 = RunResult.value FALLBACK_MESSAGE) ∧
    (∀ env : Env DetectResp, (∀ k, env.aborted k = false) →
      (∀ k, env.net k = .err false) →
      (sendImageForObjectDetection env).1 = RunResult.value FALLBACK_MESSAGE) ∧
    (∀ env : Env VqaResp, (∀ k, env.aborted k = false) →
      (∀ k, env.net k = .err false) →
      (sendImageForVQA env).1 = RunResult.value FALLBACK_MESSAGE) ∧
    (∀ env : Env VqaResp, (∀ k, env.aborted k = false) →
      (∀ k, env.net k = .err false) →
      (sendImageForColorVQA env).1 = RunResult.value FALLBACK_MESSAGE) ∧
    (∀ env : Env TranscribeResp, (∀ k, env.aborted k = false) →
      (∀ k, env.net k = .err false) →
      (sendAudioForTranscription env).1 = RunResult.value FALLBACK_MESSAGE) ∧
    (∀ env : Env TranscribeResp, env.aborted 0 = true →
      (sendAudioForTranscription env).1 = RunResult.value "") := by
  refine ⟨?_, ?_, ?_, ?_, ?_, ?_⟩
  · intro env h1 h2
    rw [show sendImageForCaptioning env = _ from runImageOp_allFail _ env h1 h2]
  · intro env h1 h2
    rw [show sendImageForObjectDetection env = _ from runImageOp_allFail _ env h1 h2]
  · intro env h1 h2
    rw [show sendImageForVQA env = _ from runImageOp_allFail _ env h1 h2]
  · intro env h1 h2
    rw [show sendImageForColorVQA env = _ from runImageOp_allFail _ env h1 h2]
  · intro env h1 h2
    rw [transcription_allFail env h1 h2]
  · intro env h
    rw [transcription_abortedStart env h]

/-- Witness for `fallback_on_exhaustion_amended` at concrete inputs. -/
theorem fallback_on_exhaustion_amended_witness :
    (sendImageForCaptioning (Env.mk (fun _ => false) (fun _ => .err false))).1 =
      RunResult.value FALLBACK_MESSAGE ∧
    (sendAudioForTranscription abortedTransEnv).1 = RunResult.value "" :=
  ⟨fallback_on_exhaustion_amended.1 _ (fun _ => rfl) (fun _ => rfl),
    fallback_on_exhaustion_amended.2.2.2.2.2 abortedTransEnv rfl⟩

/-- C3, counterexample.  Called with an already-cancelled token,
`sendAudioForTranscription` performs zero network attempts but does
not fail with the abort error: it silently returns the empty
string. -/
theorem cancelled_token_transcription_counterexample :
    sendAudioForTranscription abortedTransEnv =
      (RunResult.value "", [Ev.check true]) ∧
    (RunResult.value "" == RunResult.abortError) = false :=
  ⟨rfl, rfl⟩

/-- C3, amended.  Every operation called with an already-cancelled
token performs zero network attempts and returns at its very first
check (the trace is that single check): the four image operations fail
immediately with the abort error, while transcription instead returns
the empty string immediately. -/
theorem cancelled_token_amended :
    (∀ env : Env CaptionResp, env.aborted 0 = true →
      sendImageForCaptioning env = (RunResult.abortError, [Ev.check true])) ∧
    (∀ env : Env DetectResp, env.aborted 0 = true →
      sendImageForObjectDetection env = (RunResult.abortError, [Ev.check true])) ∧
    (∀ env : Env VqaResp, env.aborted 0 = true →
      sendImageForVQA env = (RunResult.abortError, [Ev.check true])) ∧
    (∀ env : Env VqaResp, env.aborted 0 = true →
      sendImageForColorVQA env = (RunResult.abortError, [Ev.check true])) ∧
    (∀ env : Env TranscribeResp, env.aborted 0 = true →
      sendAudioForTranscription env = (RunResult.value "", [Ev.check true])) ∧
    countAttempts [Ev.check true] = 0 :=
  ⟨fun env h => runImageOp_abortedStart captionOnSuccess env h,
    fun env h => runImageOp_abortedStart detectOnSuccess env h,
    fun env h => runImageOp_abortedStart vqaOnSuccess env h,
    fun env h => runImageOp_abortedStart colorOnSuccess env h,
    fun env h => transcription_abortedStart env h, rfl⟩

/-- Witness for `cancelled_token_amended` at concrete inputs. -/
theorem cancelled_token_amended_witness :
    sendImageForCaptioning (Env.mk (fun _ => true) (fun _ => .err false)) =
      (RunResult.abortError, [Ev.check true]) ∧
    sendAudioForTranscription abortedTransEnv =
      (RunResult.value "", [Ev.check true]) :=
  ⟨cancelled_token_amended.1 _ rfl,
    cancelled_token_amended.2.2.2.2.1 abortedTransEnv rfl⟩

/-- C10, counterexample.  In the color operation a successful response
lacking the `answer` field does not consume attempts toward the
fallback: the very first such response returns `Unknown`, after a
single attempt. -/
theorem color_fieldless_counterexample :
    sendImageForColorVQA fieldlessVqaEnv =
      (RunResult.value "Unknown",
        [Ev.check false, Ev.check false, Ev.check false, Ev.netAttempt]) ∧
    (RunResult.value "Unknown" == RunResult.value FALLBACK_MESSAGE) = false ∧
    countAttempts
      [Ev.check false, Ev.check false, Ev.check false, Ev.netAttempt] = 1 :=
  ⟨rfl, rfl, rfl⟩

/-- C10, amended.  In the caption and vqa operations a successful but
field-less response consumes one of the six attempts with no
inter-attempt sleep, and six of them in a row yield the fallback even
though no request failed; the color operation instead returns
`Unknown` immediately on the first field-less response (and detect
likewise returns on every successful response). -/
theorem fieldless_success_amended :
    (∀ env : Env CaptionResp, (∀ k, env.aborted k = false) →
      (∀ k, env.net k = .ok (CaptionResp.mk none)) →
      sendImageForCaptioning env = (RunResult.value FALLBACK_MESSAGE, fieldlessTrace)) ∧
    (∀ env : Env VqaResp, (∀ k, env.aborted k = false) →
      (∀ k, env.net k = .ok (VqaResp.mk none)) →
      sendImageForVQA env = (RunResult.value FALLBACK_MESSAGE, fieldlessTrace)) ∧
    (∀ env : Env VqaResp, (∀ k, env.aborted k = false) →
      (∀ k, env.net k = .ok (VqaResp.mk none)) →
      sendImageForColorVQA env =
        (RunResult.value "Unknown",
          [Ev.check false, Ev.check false, Ev.check false, Ev.netAttempt])) ∧
    countAttempts fieldlessTrace = MAX_RETRIES ∧
    countSleeps fieldlessTrace = 0 :=
  ⟨caption_fieldless, vqa_fieldless, color_fieldless, rfl, rfl⟩

/-- Witness for `fieldless_success_amended` at concrete inputs. -/
theorem fieldless_success_amended_witness :
    sendImageForVQA fieldlessVqaEnv =
      (RunResult.value FALLBACK_MESSAGE, fieldlessTrace) ∧
    sendImageForColorVQA fieldlessVqaEnv =
      (RunResult.value "Unknown",
        [Ev.check false, Ev.check false, Ev.check false, Ev.netAttempt]) :=
  ⟨fieldless_success_amended.2.1 fieldlessVqaEnv (fun _ => rfl) (fun _ => rfl),
    fieldless_success_amended.2.2.1 fieldlessVqaEnv (fun _ => rfl) (fun _ => rfl)⟩

/-! ## Structural lemmas about retry traces (for the retry discipline) -/

/-- Attempt counting distributes over trace concatenation. -/
theorem countAttempts_append (l1 l2 : List Ev) :
    countAttempts (l1 ++ l2) = countAttempts l1 + countAttempts l2 := by
  simp [countAttempts, List.filter_append]

/-- A leading abort check does not change the attempt count. -/
theorem countAttempts_cons_check (b : Bool) (t : List Ev) :
    countAttempts (.check b :: t) = countAttempts t := by
  simp [countAttempts, List.filter_cons, isAttempt]

/-- The retry loop of an image operation performs at most as many
attempts as it has remaining. -/
theorem imageLoop_attempts {α : Type} (onSuccess : α → Option String)
    (env : Env α) :
    ∀ remaining ck nk : ℕ,
      countAttempts (imageLoop onSuccess env remaining ck nk).2 ≤ remaining := by
  intro remaining
  induction remaining with
  | zero => intro ck nk; exact Nat.zero_le _
  | succ n ih =>
    intro ck nk
    simp only [imageLoop]
    split
    · exact Nat.zero_le _
    · split
      · exact Nat.zero_le _
      · split
        · split
          · exact Nat.succ_le_succ (Nat.zero_le n)
          · rw [countAttempts_append]
            have h := ih (ck + 2) (nk + 1)
            have hp : countAttempts
                [Ev.check false, Ev.check false, Ev.netAttempt] = 1 := rfl
            omega
        · exact Nat.succ_le_succ (Nat.zero_le n)
        · split
          · exact Nat.succ_le_succ (Nat.zero_le n)
          · split
            · exact Nat.succ_le_succ (Nat.zero_le n)
            · rw [countAttempts_append]
              have h := ih (ck + 3) (nk + 1)
              have hp : countAttempts
                  [Ev.check false, Ev.check false, Ev.netAttempt,
                    Ev.check false, Ev.sleep RETRY_DELAY] = 1 := rfl
              omega

/-- Every trace the retry loop of an image operation can produce is
well formed: attempts and sleeps immediately follow a passing abort
check, sleeps last `RETRY_DELAY`, and an observed cancellation ends
the trace. -/
theorem imageLoop_wf {α : Type} (onSuccess : α → Option String)
    (env : Env α) :
    ∀ (remaining ck nk : ℕ) (b : Bool),
      wfTrace b (imageLoop onSuccess env remaining ck nk).2 = true := by
  intro remaining
  induction remaining with
  | zero => intro ck nk b; rfl
  | succ n ih =>
    intro ck nk b
    simp only [imageLoop]
    split
    · rfl
    · split
      · rfl
      · split
        · split
          · rfl
          · simp only [List.cons_append, List.nil_append]
            simp [wfTrace, ih]
        · rfl
        · split
          · rfl
          · split
            · rfl
            · simp only [List.cons_append, List.nil_append]
              simp [wfTrace, ih]

/-- The transcription retry loop performs at most as many attempts as
it has remaining. -/
theorem transcribeLoop_attempts (env : Env TranscribeResp) :
    ∀ remaining ck nk : ℕ,
      countAttempts (transcribeLoop env remaining ck nk).2 ≤ remaining := by
  intro remaining
  induction remaining with
  | zero => intro ck nk; exact Nat.zero_le _
  | succ n ih =>
    intro ck nk
    simp only [transcribeLoop]
    split
    · exact Nat.zero_le _
    · split
      · exact Nat.succ_le_succ (Nat.zero_le n)
      · exact Nat.succ_le_succ (Nat.zero_le n)
      · split
        · exact Nat.succ_le_succ (Nat.zero_le n)
        · split
          · exact Nat.succ_le_succ (Nat.zero_le n)
          · rw [countAttempts_append]
            have h := ih (ck + 2) (nk + 1)
            have hp : countAttempts
                [Ev.check false, Ev.netAttempt, Ev.check false,
                  Ev.sleep RETRY_DELAY] = 1 := rfl
            omega

/-- Every trace the transcription retry loop can produce is well
formed. -/
theorem transcribeLoop_wf (env : Env TranscribeResp) :
    ∀ (remaining ck nk : ℕ) (b : Bool),
      wfTrace b (transcribeLoop env remaining ck nk).2 = true := by
  intro remaining
  induction remaining with
  | zero => intro ck nk b; rfl
  | succ n ih =>
    intro ck nk b
    simp only [transcribeLoop]
    split
    · rfl
    · split
      · rfl
      · rfl
      · split
        · rfl
        · split
          · rfl
          · simp only [List.cons_append, List.nil_append]
            simp [wfTrace, ih]

/-- Attempt bound for a full image-operation run. -/
theorem runImageOp_attempts {α : Type} (onSuccess : α → Option String)
    (env : Env α) :
    countAttempts (runImageOp onSuccess env).2 ≤ MAX_RETRIES := by
  unfold runImageOp
  split
  · exact Nat.zero_le _
  · exact le_of_eq_of_le (countAttempts_cons_check false _)
      (imageLoop_attempts onSuccess env MAX_RETRIES 1 0)

/-- Well-formedness of a full image-operation trace. -/
theorem runImageOp_wf {α : Type} (onSuccess : α → Option String)
    (env : Env α) :
    wfTrace false (runImageOp onSuccess env).2 = true := by
  unfold runImageOp
  split
  · rfl
  · exact imageLoop_wf onSuccess env MAX_RETRIES 1 0 true

/-- Attempt bound for a full transcription run. -/
theorem transcription_attempts (env : Env TranscribeResp) :
    countAttempts (sendAudioForTranscription env).2 ≤ MAX_RETRIES := by
  unfold sendAudioForTranscription
  split
  · exact Nat.zero_le _
  · exact le_of_eq_of_le (countAttempts_cons_check false _)
      (transcribeLoop_attempts env MAX_RETRIES 1 0)

/-- Well-formedness of a full transcription trace. -/
theorem transcription_wf (env : Env TranscribeResp) :
    wfTrace false (sendAudioForTranscription env).2 = true := by
  unfold sendAudioForTranscription
  split
  · rfl
  · exact transcribeLoop_wf env MAX_RETRIES 1 0 true

/-- C4.  For every operation and every environment, the run makes at
most `MAX_RETRIES` (6) attempts, and its trace is well formed: every
attempt and every sleep immediately follows an abort check that
observed the token uncancelled, every sleep lasts `RETRY_DELAY`
(3000 ms), and a check that observes cancellation is the final event
of the run — no attempt or delay follows it (`wfTrace`).  Moreover on
any input on which every attempt fails (and the token stays
uncancelled) the run is exactly the six-attempt trace with a single
3000 ms sleep between consecutive attempts. -/
theorem retry_discipline :
    (∀ env : Env CaptionResp,
      countAttempts (sendImageForCaptioning env).2 ≤ MAX_RETRIES ∧
      wfTrace false (sendImageForCaptioning env).2 = true) ∧
    (∀ env : Env DetectResp,
      countAttempts (sendImageForObjectDetection env).2 ≤ MAX_RETRIES ∧
      wfTrace false (sendImageForObjectDetection env).2 = true) ∧
    (∀ env : Env VqaResp,
      countAttempts (sendImageForVQA env).2 ≤ MAX_RETRIES ∧
      wfTrace false (sendImageForVQA env).2 = true) ∧
    (∀ env : Env VqaResp,
      countAttempts (sendImageForColorVQA env).2 ≤ MAX_RETRIES ∧
      wfTrace false (sendImageForColorVQA env).2 = true) ∧
    (∀ env : Env TranscribeResp,
      countAttempts (sendAudioForTranscription env).2 ≤ MAX_RETRIES ∧
      wfTrace false (sendAudioForTranscription env).2 = true) ∧
    (∀ env : Env CaptionResp, (∀ k, env.aborted k = false) →
      (∀ k, env.net k = .err false) →
      sendImageForCaptioning env = (.value FALLBACK_MESSAGE, allFailImageTrace)) ∧
    (∀ env : Env TranscribeResp, (∀ k, env.aborted k = false) →
      (∀ k, env.net k = .err false) →
      sendAudioForTranscription env = (.value FALLBACK_MESSAGE, allFailTransTrace)) ∧
    countAttempts allFailImageTrace = MAX_RETRIES ∧
    countSleeps allFailImageTrace = 5 ∧
    countAttempts allFailTransTrace = MAX_RETRIES ∧
    countSleeps allFailTransTrace = 5 :=
  ⟨fun env => ⟨runImageOp_attempts captionOnSuccess env,
      runImageOp_wf captionOnSuccess env⟩,
    fun env => ⟨runImageOp_attempts detectOnSuccess env,
      runImageOp_wf detectOnSuccess env⟩,
    fun env => ⟨runImageOp_attempts vqaOnSuccess env,
      runImageOp_wf vqaOnSuccess env⟩,
    fun env => ⟨runImageOp_attempts colorOnSuccess env,
      runImageOp_wf colorOnSuccess env⟩,
    fun env => ⟨transcription_attempts env, transcription_wf env⟩,
    fun env h1 h2 => runImageOp_allFail captionOnSuccess env h1 h2,
    fun env h1 h2 => transcription_allFail env h1 h2,
    rfl, rfl, rfl, rfl⟩

/-- Witness for `retry_discipline` at concrete inputs. -/
theorem retry_discipline_witness :
    sendImageForCaptioning (Env.mk (fun _ => false) (fun _ => .err false)) =
      (RunResult.value FALLBACK_MESSAGE, allFailImageTrace) ∧
    sendAudioForTranscription allFailTransEnv =
      (RunResult.value FALLBACK_MESSAGE, allFailTransTrace) :=
  ⟨retry_discipline.2.2.2.2.2.1 _ (fun _ => rfl) (fun _ => rfl),
    retry_discipline.2.2.2.2.2.2.1 allFailTransEnv (fun _ => rfl) (fun _ => rfl)⟩

/-- C5, divergence exhibited at the failing schedule.  Run the Detect
`takePhoto` success path under `staleAfterResultSess`: the session
counter is 0 when the pipeline starts (so its epoch is 0) and both of
the pipeline's own checkpoints (ticks 1 and 7) still observe 0, but
the counter advances to 1 while the continuation sits in the 500 ms
delay before speaking the result.  The resumed continuation — guarded
only by the render-captured `isFocused`, with no session re-check —
still emits the result speech, tagged with session 1, even though the
pipeline's epoch is `staleAfterResultSess 0 = 0`.  This contradicts
the requirement that a continuation resuming after the session has
advanced past its epoch performs no UI or speech effect. -/
theorem detect_stale_speech_bug :
    (1, Effect.speak "a dog") ∈ takePhotoDetect staleAfterResultSess "a dog" ∧
    staleAfterResultSess 0 = 0 ∧ staleAfterResultSess 9 = 1 :=
  ⟨by decide, rfl, rfl⟩

/-- C6, divergence exhibited at the failing input.  Starting from the
module-load state, `speakText` for clip A (identifier 0) followed
immediately by `speakText` for clip B (identifier 1) leaves BOTH clips
loaded and playing: because `speakText` never assigns the clip it
creates to the module variable `currentSound`, that variable is still
null when the second call runs, so its `cancelSpeakText` finds nothing
to stop.  The claim that A is cancelled and unloaded with only B
audible — and that at most one clip plays at a time — fails. -/
theorem speakText_concurrent_clips_bug :
    (speakText (speakText initialSpeakState)).playing = [1, 0] ∧
    (speakText (speakText initialSpeakState)).loaded = [1, 0] ∧
    (speakText (speakText initialSpeakState)).currentSound = none :=
  ⟨rfl, rfl, rfl⟩

/-- C8.  For every text length, the computed speech timeout equals the
clamp of the length-proportional estimate `0.1 * len + 5` seconds to
the band [30 s, 120 s] (stated in milliseconds), and in particular it
is never below 30000 ms and never above 120000 ms. -/
theorem speak_timeout_clamp (len : ℕ) :
    timeoutDuration len =
      min (max ((len : ℚ) * (1 / 10) + 5) 30) 120 * 1000 ∧
    30000 ≤ timeoutDuration len ∧ timeoutDuration len ≤ 120000 := by
  refine ⟨?_, ?_, ?_⟩
  · unfold timeoutDuration estimatedDuration
    rcases le_total (max ((len : ℚ) * (1 / 10) + 5) 30) 120 with h | h
    · rw [min_eq_left (by linarith), min_eq_left h]
    · rw [min_eq_right (by linarith), min_eq_right h]
      norm_num
  · unfold timeoutDuration estimatedDuration
    refine le_min ?_ (by norm_num)
    have h30 : (30000 : ℚ) = 30 * 1000 := by norm_num
    have hm := le_max_right ((len : ℚ) * (1 / 10) + 5) 30
    linarith
  · exact min_le_right _ _

/-! ## Helper lemmas for the playback queue -/

/-- `queueAudio` while a job is running only appends to the queue. -/
theorem qstep_enq_busy (q : List ℕ) (v j : ℕ) :
    qstep (QState.mk q (some v)) (.enq j) =
      (QState.mk (q ++ [j]) (some v), []) := rfl

/-- `queueAudio` on the idle, empty queue starts the job at once. -/
theorem qstep_enq_idle (j : ℕ) :
    qstep (QState.mk [] none) (.enq j) = (QState.mk [] (some j), [j]) := rfl

/-- Job settlement with nothing pending leaves the queue idle. -/
theorem qstep_fin_empty (v : ℕ) (ok : Bool) :
    qstep (QState.mk [] (some v)) (.fin ok) = (QState.mk [] none, []) := rfl

/-- Job settlement with jobs pending starts the head job. -/
theorem qstep_fin_start (x v : ℕ) (t : List ℕ) (ok : Bool) :
    qstep (QState.mk (x :: t) (some v)) (.fin ok) =
      (QState.mk t (some x), [x]) := rfl

/-- The queue invariant: whenever no job is running, nothing is
pending (the recursive drain in `playNextInQueue` never leaves work
behind when it unmarks `isPlayingAudioRef`). -/
def QIdleInv (s : QState) : Prop := s.running = none → s.queue = []

/-- FIFO correctness of the queue from any state satisfying the idle
invariant: the jobs started during a run, in start order, followed by
the jobs still pending, are exactly the initially pending jobs
followed by the enqueued jobs in arrival order. -/
theorem qrun_fifo :
    ∀ (acts : List QAct) (s : QState), QIdleInv s →
      (qrun s acts).2 ++ (qrun s acts).1.queue = s.queue ++ enqueuedOf acts := by
  intro acts
  induction acts with
  | nil => intro s _; simp [qrun, enqueuedOf]
  | cons a rest ih =>
    intro s hs
    obtain ⟨q, r⟩ := s
    cases a with
    | enq j =>
      cases r with
      | some v =>
        have h1 := ih (QState.mk (q ++ [j]) (some v)) (by intro h; simp at h)
        simp only [qrun, qstep_enq_busy, List.nil_append, enqueuedOf]
        rw [h1]
        simp
      | none =>
        have hq : q = [] := hs rfl
        subst hq
        have h1 := ih (QState.mk [] (some j)) (by intro h; simp at h)
        simp only [List.nil_append] at h1
        simp only [qrun, qstep_enq_idle, enqueuedOf, List.cons_append,
          List.nil_append, List.append_assoc]
        rw [h1]
    | fin ok =>
      cases r with
      | none =>
        have h1 := ih (QState.mk q none) hs
        simp only [qrun, qstep, List.nil_append, enqueuedOf]
        exact h1
      | some v =>
        cases q with
        | nil =>
          have h1 := ih (QState.mk [] none) (fun _ => rfl)
          simp only [qrun, qstep_fin_empty, List.nil_append, enqueuedOf] at h1 ⊢
          exact h1
        | cons x t =>
          have h1 := ih (QState.mk t (some x)) (by intro h; simp at h)
          simp only [qrun, qstep_fin_start, enqueuedOf, List.cons_append,
            List.nil_append, List.append_assoc]
          rw [h1]

/-- C7.  The playback queue is serial and FIFO: (1) from the idle
empty state, any sequence of enqueues and job settlements starts jobs
exactly in arrival order (the started jobs followed by the still
pending ones are the enqueued jobs); (2) an enqueue while a job is
running never starts anything — a new job can only start at a
settlement step, i.e. after the previous job has fully finished or
failed; (3) a failing settlement behaves exactly like a successful
one, so a failing job does not stall the queue; (4)(5) the concrete
scenario: J1, J2, J3 enqueued from idle run in order J1, J2, J3, with
J2 starting exactly at the step where J1 settles even though J1
failed, and J3 at J2's settlement. -/
theorem audio_queue_serial :
    (∀ acts : List QAct,
      (qrun (QState.mk [] none) acts).2 ++
        (qrun (QState.mk [] none) acts).1.queue = enqueuedOf acts) ∧
    (∀ (s : QState) (j : ℕ), s.running.isSome = true →
      (qstep s (.enq j)).2 = []) ∧
    (∀ (s : QState) (ok1 ok2 : Bool), qstep s (.fin ok1) = qstep s (.fin ok2)) ∧
    (qrun (QState.mk [] none)
      [.enq 1, .enq 2, .enq 3, .fin false, .fin true, .fin true]).2 = [1, 2, 3] ∧
    qtrace (QState.mk [] none)
      [.enq 1, .enq 2, .enq 3, .fin false, .fin true, .fin true] =
      [[1], [], [], [2], [3], []] := by
  refine ⟨?_, ?_, ?_, rfl, rfl⟩
  · intro acts
    have h := qrun_fifo acts (QState.mk [] none) (fun _ => rfl)
    simpa using h
  · intro s j h
    obtain ⟨q, r⟩ := s
    cases r with
    | none => simp at h
    | some v => rw [qstep_enq_busy]
  · intro s ok1 ok2
    rfl

/-- Witness for `audio_queue_serial` at a concrete busy state. -/
theorem audio_queue_serial_witness :
    (qstep (QState.mk [] (some 0)) (.enq 1)).2 = [] :=
  audio_queue_serial.2.1 (QState.mk [] (some 0)) 1 rfl

/-! ## Helper lemmas for the recording sub-pipeline -/

/-- Invariant of the recording sub-pipeline: at most one stop has
ever run, none while the recording is still live, and every stop
issued exactly one transcription. -/
def RecInv (s : RecState) : Prop :=
  s.stops ≤ 1 ∧ (s.recording = true → s.stops = 0) ∧ s.transcribes = s.stops

/-- `onFinalize` preserves the invariant: it runs the stop flow only
when a recording is live, and that flow ends the recording. -/
theorem onFinalize_inv (s : RecState) (h : RecInv s) : RecInv (onFinalize s) := by
  obtain ⟨h1, h2, h3⟩ := h
  unfold onFinalize forceStopRecording
  split
  · exact ⟨h1, h2, h3⟩
  · split
    · rename_i hrec
      have h0 : s.stops = 0 := h2 hrec
      simp only [hrec, if_true, RecInv]
      refine ⟨by omega, by simp, by omega⟩
    · exact ⟨h1, by simp_all, h3⟩

/-- Every scheduler event preserves the invariant. -/
theorem recStep_inv (s : RecState) (e : RecEv) (h : RecInv s) :
    RecInv (recStep s e) := by
  obtain ⟨h1, h2, h3⟩ := h
  cases e with
  | countdownExpire =>
    simp only [recStep]
    split
    · exact ⟨h1, h2, h3⟩
    · exact ⟨h1, h2, h3⟩
  | timeoutFire =>
    simp only [recStep]
    split
    · exact ⟨h1, h2, h3⟩
    · exact ⟨h1, h2, h3⟩
  | release => exact onFinalize_inv s ⟨h1, h2, h3⟩
  | render =>
    simp only [recStep]
    split
    · exact onFinalize_inv s ⟨h1, h2, h3⟩
    · exact ⟨h1, h2, h3⟩

/-- The invariant holds along every run. -/
theorem recRun_inv :
    ∀ (evs : List RecEv) (s : RecState), RecInv s → RecInv (recRun s evs) := by
  intro evs
  induction evs with
  | nil => intro s h; exact h
  | cons e rest ih => intro s h; exact ih (recStep s e) (recStep_inv s e h)

/-- C9.  From the recording-in-progress state, every interleaving of
countdown expiry, 10-second timeout, gesture release and re-renders
runs the stop/transcribe flow at most once, and every stop issues
exactly one transcription (the stop transitions directly into
transcription).  On the ceiling schedule — the countdown expires, the
timeout fires, the re-render disables the gesture (finalizing it) and
the user's release arrives only afterwards — the flow runs exactly
once; a release-first schedule also converges to exactly one run. -/
theorem recording_force_stop_once :
    (∀ evs : List RecEv, (recRun recordingActive evs).stops ≤ 1 ∧
      (recRun recordingActive evs).transcribes =
        (recRun recordingActive evs).stops) ∧
    (recRun recordingActive
      [.countdownExpire, .timeoutFire, .render, .release]).stops = 1 ∧
    (recRun recordingActive
      [.countdownExpire, .timeoutFire, .render, .release]).transcribes = 1 ∧
    (recRun recordingActive [.release, .countdownExpire, .render]).stops = 1 := by
  refine ⟨?_, rfl, rfl, rfl⟩
  intro evs
  have h := recRun_inv evs recordingActive ⟨by decide, fun _ => rfl, rfl⟩
  exact ⟨h.1, h.2.2⟩

end EyeCue
